import Mathlib

/-!
Shallow embedding of the worldmonitor price-proxy core:
`src/api/coingecko.js` (validator, single-slot cache, request handler)
and the shared market helpers (Finnhub quote fetcher, Yahoo chart
fetcher, CoinGecko markets fetcher).

Modelling conventions:
* JS strings are Lean `String`s; `searchParams.get` results are
  `Option String` (`none` = parameter absent).
* JS string falsiness (`!s` true for `null` and `""`) is modelled
  explicitly where the source relies on it.
* Timestamps are `Int` milliseconds (`Date.now()`).
* The outcome of a `fetch` call is an oracle value of type
  `FetchOutcome α`: either the fetch throws (network failure, timeout
  via `AbortSignal`), or a response arrives with a status code and a
  body whose read/parse (`text()` / `json()`) either throws or yields
  a value of type `α`.
* JSON numbers are `ℚ` (JSON cannot encode NaN/Infinity, so upstream
  fields are finite); a division whose JS result would be non-finite
  (NaN or ±Infinity, i.e. a zero denominator) is modelled as `none`.
* String primitives (`split`, `trim`, `toLowerCase`, `join`) are
  re-implemented over `List Char` with JS semantics, so that concrete
  instances evaluate inside the kernel.
-/

/-! ## JS string primitives -/

/-- JS whitespace characters relevant to `String.prototype.trim`
(ASCII portion; the identifier pattern excludes all whitespace, so the
exotic Unicode spaces cannot influence any validated value). -/
def isJsWhitespace (ch : Char) : Bool :=
  ch == ' ' || ch == '\t' || ch == '\n' || ch == '\r' || ch == '\x0b' || ch == '\x0c'

/-- `String.prototype.trim`: drop leading and trailing whitespace. -/
def jsTrim (s : String) : String :=
  String.mk (((s.toList.dropWhile isJsWhitespace).reverse.dropWhile isJsWhitespace).reverse)

/-- `toLowerCase` on one character (ASCII range, which is all the
identifier pattern can accept). -/
def jsLowerChar (ch : Char) : Char :=
  if 'A' ≤ ch ∧ ch ≤ 'Z' then Char.ofNat (ch.toNat + 32) else ch

/-- `String.prototype.toLowerCase` (ASCII range). -/
def jsToLower (s : String) : String :=
  String.mk (s.toList.map jsLowerChar)

/-- Helper for `split(',')`: accumulate the current field (reversed). -/
def splitCommaAux : List Char → List Char → List String
  | [], acc => [String.mk acc.reverse]
  | ch :: rest, acc =>
    if ch == ',' then String.mk acc.reverse :: splitCommaAux rest []
    else splitCommaAux rest (ch :: acc)

/-- `String.prototype.split(',')`: `"" ↦ [""]`, `"," ↦ ["", ""]`, etc. -/
def jsSplitComma (s : String) : List String :=
  splitCommaAux s.toList []

/-- `Array.prototype.join(',')`. -/
def jsJoinComma : List String → String
  | [] => ""
  | [x] => x
  | x :: y :: xs => x ++ "," ++ jsJoinComma (y :: xs)

/-! ## Validator (src/api/coingecko.js lines 3-30) -/

/-- `ALLOWED_CURRENCIES = ['usd','eur','gbp','jpy','cny','btc','eth']`. -/
def ALLOWED_CURRENCIES : List String := ["usd", "eur", "gbp", "jpy", "cny", "btc", "eth"]

/-- `MAX_COIN_IDS = 20`. -/
def MAX_COIN_IDS : Nat := 20

/-- Character class `[a-z0-9-]` of `COIN_ID_PATTERN`. -/
def isCoinIdChar (ch : Char) : Bool :=
  (decide ('a' ≤ ch) && decide (ch ≤ 'z')) || (decide ('0' ≤ ch) && decide (ch ≤ '9')) || (ch == '-')

/-- `COIN_ID_PATTERN.test id` for `COIN_ID_PATTERN = /^[a-z0-9-]+$/`:
the whole string is a nonempty run of `[a-z0-9-]` characters. -/
def coinIdPatternTest (id : String) : Bool :=
  !(id == "") && id.toList.all isCoinIdChar

/-- The filter predicate of `validateCoinIds`:
`COIN_ID_PATTERN.test(id) && id.length <= 50`. -/
def isValidCoinId (id : String) : Bool :=
  coinIdPatternTest id && decide (id.length ≤ 50)

/-- The list built inside `validateCoinIds` (lines 14-17): split on
comma, trim + lowercase each entry, keep the valid ones, cap at
`MAX_COIN_IDS`. -/
def validateCoinIdsList (s : String) : List String :=
  (((jsSplitComma s).map (fun id => jsToLower (jsTrim id))).filter isValidCoinId).take
    MAX_COIN_IDS

/-- `validateCoinIds` (lines 11-20): absent or empty (`!idsParam`)
gives the default `'bitcoin,ethereum,solana'`; otherwise the filtered
list re-joined, falling back to the default when nothing survives. -/
def validateCoinIds (idsParam : Option String) : String :=
  match idsParam with
  | none => "bitcoin,ethereum,solana"
  | some s =>
    if s == "" then "bitcoin,ethereum,solana"
    else if (validateCoinIdsList s).length > 0 then jsJoinComma (validateCoinIdsList s)
    else "bitcoin,ethereum,solana"

/-- `(val || 'usd').toLowerCase()` of `validateCurrency` (line 23). -/
def rawCurrency (val : Option String) : String :=
  jsToLower (match val with
    | none => "usd"
    | some s => if s == "" then "usd" else s)

/-- `validateCurrency` (lines 22-25): the lowercased value when it is
in `ALLOWED_CURRENCIES`, else `'usd'`. -/
def validateCurrency (val : Option String) : String :=
  if ALLOWED_CURRENCIES.contains (rawCurrency val) then rawCurrency val else "usd"

/-- `validateBoolean` (lines 27-30): only the literal strings
`'true'`/`'false'` pass through; anything else gives the default. -/
def validateBoolean (val : Option String) (defaultVal : String) : String :=
  match val with
  | some s => if s == "true" || s == "false" then s else defaultVal
  | none => defaultVal

/-! ## Cache (src/api/coingecko.js lines 7-9) -/

/-- The module-level `cache` object: `{ data, key, timestamp }`.
`data`/`key` are `none` when the field is `null`/absent (initial
state `{ data: null, timestamp: 0 }`). -/
structure Cache where
  data : Option String
  key : Option String
  timestamp : Int
  deriving DecidableEq, Repr

/-- `cache = { data: null, timestamp: 0 }` (line 8). -/
def initialCache : Cache := ⟨none, none, 0⟩

/-- `CACHE_TTL = 120 * 1000` milliseconds (line 9). -/
def CACHE_TTL : Int := 120 * 1000

/-- The freshness test of line 41: `Date.now() - cache.timestamp < CACHE_TTL`. -/
def isFresh (now capturedAt : Int) : Bool :=
  decide (now - capturedAt < CACHE_TTL)

/-- JS truthiness of `cache.data`: `null` and `''` are falsy, every
other string truthy. -/
def dataTruthy (cache : Cache) : Bool :=
  match cache.data with
  | some s => !(s == "")
  | none => false

/-- The guard of line 41:
`cache.data && cache.key === cacheKey && Date.now() - cache.timestamp < CACHE_TTL`. -/
def hitGuard (cache : Cache) (cacheKey : String) (now : Int) : Bool :=
  dataTruthy cache && (cache.key == some cacheKey) && isFresh now cache.timestamp

/-- The guard shared by lines 62 and 92:
`cache.data && cache.key === cacheKey`. -/
def fallbackGuard (cache : Cache) (cacheKey : String) : Bool :=
  dataTruthy cache && (cache.key == some cacheKey)

/-! ## Fetch outcomes -/

/-- Result of reading/parsing a response body (`text()` / `json()`):
it can throw (landing in the surrounding `catch`) or yield a value. -/
inductive BodyResult (α : Type) where
  | throws : BodyResult α
  | ok : α → BodyResult α
  deriving DecidableEq, Repr

/-- Oracle for one `fetch` call: the fetch itself throws (network
failure, or timeout via `AbortSignal`), or a response arrives with an
HTTP status code and a body. -/
inductive FetchOutcome (α : Type) where
  | fetchThrow : FetchOutcome α
  | resp : Nat → BodyResult α → FetchOutcome α
  deriving DecidableEq, Repr

/-- `Response.ok`: status in the inclusive range 200-299. -/
def respOk (status : Nat) : Bool :=
  decide (200 ≤ status) && decide (status ≤ 299)

/-! ## Handler (src/api/coingecko.js lines 32-108) -/

/-- The observable parts of a `Response` built by the handler: status,
body, and the `X-Cache` / `Cache-Control` headers (`none` = header not
set; the hard-failure response sets neither). -/
structure HandlerResponse where
  status : Nat
  body : String
  xCache : Option String
  cacheControl : Option String
  deriving DecidableEq, Repr

/-- The `Cache-Control` value of the HIT / STALE / MISS responses. -/
def swrCacheControl : String := "public, max-age=120, stale-while-revalidate=60"

/-- `JSON.stringify({ error: 'Failed to fetch data' })` (line 103). -/
def errorBody : String := "\x7b\"error\":\"Failed to fetch data\"\x7d"

/-- Cache key of line 40: `` `${ids}:${vsCurrencies}:${include24hrChange}` ``. -/
def cacheKeyOf (idsParam vsParam changeParam : Option String) : String :=
  validateCoinIds idsParam ++ ":" ++ validateCurrency vsParam ++ ":"
    ++ validateBoolean changeParam "true"

/-- The `catch` block (lines 90-107): serve the stored payload with
status 200 and an `ERROR-FALLBACK` marker when an entry for the key
exists, else the fixed 500 error body; the cache is not written. -/
def catchBlock (cache : Cache) (cacheKey : String) : HandlerResponse × Cache :=
  if fallbackGuard cache cacheKey then
    (⟨200, cache.data.getD "", some "ERROR-FALLBACK", some "public, max-age=120"⟩, cache)
  else
    (⟨500, errorBody, none, none⟩, cache)

/-- The handler (lines 32-108) as a function of the three query
parameters, the module cache state, the current time, and the fetch
oracle. Returns the response together with the cache state after the
request. Faithful control flow: fresh-hit check first (no fetch on a
hit); then the 429-with-cache check, which fires before `text()` is
awaited; then the body read (whose failure lands in `catch`); a 2xx
(`response.ok`) response overwrites the cache slot; every response
status is otherwise passed through with an `X-Cache: MISS` marker. -/
def handler (idsParam vsParam changeParam : Option String) (cache : Cache) (now : Int)
    (upstream : FetchOutcome String) : HandlerResponse × Cache :=
  let cacheKey := cacheKeyOf idsParam vsParam changeParam
  if hitGuard cache cacheKey now then
    (⟨200, cache.data.getD "", some "HIT", some swrCacheControl⟩, cache)
  else
    match upstream with
    | .fetchThrow => catchBlock cache cacheKey
    | .resp status body =>
      if (status == 429) && fallbackGuard cache cacheKey then
        (⟨200, cache.data.getD "", some "STALE", some swrCacheControl⟩, cache)
      else
        match body with
        | .throws => catchBlock cache cacheKey
        | .ok data =>
          (⟨status, data, some "MISS", some swrCacheControl⟩,
           if respOk status then ⟨some data, some cacheKey, now⟩ else cache)

/-! ## Request model (for the key-determinism claim) -/

/-- An incoming request: the decoded query parameters (in order), plus
the parts of the request the handler never consults (headers, path). -/
structure Request where
  searchParams : List (String × String)
  headers : List (String × String)
  pathname : String
  deriving DecidableEq, Repr

/-- `url.searchParams.get name`: the value of the first parameter with
that name, or `none`. -/
def getParam (r : Request) (name : String) : Option String :=
  (r.searchParams.find? (fun p => p.1 == name)).map Prod.snd

/-- The triple of validated values the handler computes (lines 35-37). -/
def validatedOf (r : Request) : String × String × String :=
  (validateCoinIds (getParam r "ids"),
   validateCurrency (getParam r "vs_currencies"),
   validateBoolean (getParam r "include_24hr_change") "true")

/-- The cache key the handler computes for a request (line 40). -/
def requestCacheKey (r : Request) : String :=
  cacheKeyOf (getParam r "ids") (getParam r "vs_currencies")
    (getParam r "include_24hr_change")

/-! ## Finnhub quote fetcher (src/unnamed/part_000 lines 57-76) -/

/-- The upstream Finnhub quote body
`{ c, d, dp, h, l, o, pc, t }` (all JSON numbers). -/
structure FinnhubQuote where
  c : ℚ
  d : ℚ
  dp : ℚ
  h : ℚ
  l : ℚ
  o : ℚ
  pc : ℚ
  t : ℚ
  deriving DecidableEq, Repr

/-- The normalised stock-quote result `{ symbol, price, changePercent }`. -/
structure StockQuote where
  symbol : String
  price : ℚ
  changePercent : ℚ
  deriving DecidableEq, Repr

/-- `fetchFinnhubQuote`: `null` on fetch throw (network failure or
timeout), on `!resp.ok`, on a body-parse throw, and on an all-zero
quote (`c === 0 && h === 0 && l === 0`); otherwise
`{ symbol, price: data.c, changePercent: data.dp }`. The `apiKey`
argument only feeds the request URL. -/
def fetchFinnhubQuote (symbol apiKey : String)
    (outcome : FetchOutcome FinnhubQuote) : Option StockQuote :=
  match outcome with
  | .fetchThrow => none
  | .resp status body =>
    if respOk status then
      match body with
      | .throws => none
      | .ok data =>
        if data.c = 0 ∧ data.h = 0 ∧ data.l = 0 then none
        else some ⟨symbol, data.c, data.dp⟩
    else none

/-! ## Yahoo chart fetcher (src/unnamed/part_000 lines 82-111) -/

/-- `chart.result[i].meta`: `regularMarketPrice` required, the two
previous-close fields optional. -/
structure YahooMeta where
  regularMarketPrice : ℚ
  chartPreviousClose : Option ℚ
  previousClose : Option ℚ
  deriving DecidableEq, Repr

/-- One entry of `indicators.quote`: an optional `close` series whose
elements may be `null`. -/
structure YahooQuoteEntry where
  close : Option (List (Option ℚ))
  deriving DecidableEq, Repr

/-- `chart.result[i].indicators`: an optional `quote` array. -/
structure YahooIndicators where
  quote : Option (List YahooQuoteEntry)
  deriving DecidableEq, Repr

/-- One element of `chart.result`. -/
structure YahooResultItem where
  meta : YahooMeta
  indicators : Option YahooIndicators
  deriving DecidableEq, Repr

/-- `data.chart`. -/
structure YahooChart where
  result : List YahooResultItem
  deriving DecidableEq, Repr

/-- The parsed Yahoo chart response body. -/
structure YahooChartResponse where
  chart : YahooChart
  deriving DecidableEq, Repr

/-- The normalised chart-quote result `{ price, change, sparkline }`.
`change = none` marks the non-finite (NaN) JS value arising from a
zero denominator. -/
structure YahooQuote where
  price : ℚ
  change : Option ℚ
  sparkline : List ℚ
  deriving DecidableEq, Repr

/-- JS truthiness filter on an optional number: `0` (and absence) is
falsy, so `x || y` skips it. -/
def truthyNum (x : Option ℚ) : Option ℚ :=
  match x with
  | some q => if q = 0 then none else some q
  | none => none

/-- `meta.chartPreviousClose || meta.previousClose || price` (line 101):
first truthy value, with `price` as the final (unchecked) fallback. -/
def jsPrevClose (meta : YahooMeta) : ℚ :=
  match truthyNum meta.chartPreviousClose with
  | some q => q
  | none =>
    match truthyNum meta.previousClose with
    | some q => q
    | none => meta.regularMarketPrice

/-- JS division on finite numbers, `none` when the JS result would be
non-finite (zero denominator: NaN for `0/0`, ±Infinity otherwise). -/
def jsDiv (a b : ℚ) : Option ℚ :=
  if b = 0 then none else some (a / b)

/-- `((price - prevClose) / prevClose) * 100` (line 102). -/
def yahooChange (meta : YahooMeta) : Option ℚ :=
  (jsDiv (meta.regularMarketPrice - jsPrevClose meta) (jsPrevClose meta)).map
    (fun x => x * 100)

/-- `result.indicators?.quote?.[0]?.close` (line 104). -/
def closesOf (item : YahooResultItem) : Option (List (Option ℚ)) :=
  item.indicators.bind (fun ind =>
    ind.quote.bind (fun q => q.head?.bind (fun entry => entry.close)))

/-- `closes?.filter(v => v != null) || []` (line 105); a present filter
result is an array, hence truthy even when empty. -/
def sparklineOf (item : YahooResultItem) : List ℚ :=
  match closesOf item with
  | some closes => closes.filterMap id
  | none => []

/-- `fetchYahooQuote`: `null` on fetch throw, `!resp.ok`, parse throw,
or an empty `chart.result` (the `if (!meta) return null` guard);
otherwise `{ price: meta.regularMarketPrice, change, sparkline }`. -/
def fetchYahooQuote (symbol : String)
    (outcome : FetchOutcome YahooChartResponse) : Option YahooQuote :=
  match outcome with
  | .fetchThrow => none
  | .resp status body =>
    if respOk status then
      match body with
      | .throws => none
      | .ok data =>
        match data.chart.result.head? with
        | none => none
        | some item =>
          some ⟨item.meta.regularMarketPrice, yahooChange item.meta, sparklineOf item⟩
    else none

/-! ## Theorems -/

/-- C1: every raw input to the Validator (absent, empty, oversized,
injection-like included) yields an `ids` value that is a comma-join of
between 1 and 20 identifiers, each matching `^[a-z0-9-]+$` and at most
50 characters long, and a currency inside the fixed 7-entry allow-list.
Validation is total: `validateCoinIds` and `validateCurrency` are total
Lean functions, so no input can make them fail. -/
theorem c1_validator_total_and_bounded (idsParam curParam : Option String) :
    (∃ l : List String, validateCoinIds idsParam = jsJoinComma l
      ∧ 1 ≤ l.length ∧ l.length ≤ MAX_COIN_IDS
      ∧ ∀ id ∈ l, isValidCoinId id = true)
    ∧ validateCurrency curParam ∈ ALLOWED_CURRENCIES
    ∧ ALLOWED_CURRENCIES.length = 7 := by
  refine ⟨?_, ?_, by decide⟩
  · have hdef : ∃ l : List String, "bitcoin,ethereum,solana" = jsJoinComma l
        ∧ 1 ≤ l.length ∧ l.length ≤ MAX_COIN_IDS
        ∧ ∀ id ∈ l, isValidCoinId id = true := by
      exact ⟨["bitcoin", "ethereum", "solana"], by decide, by decide, by decide, by decide⟩
    match idsParam with
    | none => exact hdef
    | some s =>
      show (∃ l, (if s == "" then "bitcoin,ethereum,solana"
        else if (validateCoinIdsList s).length > 0 then jsJoinComma (validateCoinIdsList s)
        else "bitcoin,ethereum,solana") = jsJoinComma l ∧ _)
      by_cases hs : (s == "") = true
      · rw [if_pos hs]; exact hdef
      · rw [if_neg hs]
        by_cases hlen : (validateCoinIdsList s).length > 0
        · rw [if_pos hlen]
          refine ⟨validateCoinIdsList s, rfl, by omega, ?_, ?_⟩
          · exact List.length_take_le _ _
          · intro id hid
            exact (List.mem_filter.mp (List.mem_of_mem_take hid)).2
        · rw [if_neg hlen]; exact hdef
  · by_cases hc : ALLOWED_CURRENCIES.contains (rawCurrency curParam) = true
    · rw [validateCurrency, if_pos hc]
      exact List.mem_of_elem_eq_true hc
    · rw [validateCurrency, if_neg hc]
      decide

/-- C6: freshness is exactly `now - capturedAt < CACHE_TTL` with the
TTL fixed at 120 seconds (120000 ms): an entry captured at `T` is
fresh at every time strictly before `T + CACHE_TTL` and stale at every
time at or after it, so fresh at `T + CACHE_TTL - ε` and stale at
`T + CACHE_TTL + ε` for every `ε > 0`. -/
theorem c6_freshness_boundary (T now : Int) :
    (isFresh now T = true ↔ now < T + CACHE_TTL)
    ∧ (∀ ε : Int, 0 < ε → isFresh (T + CACHE_TTL - ε) T = true
        ∧ isFresh (T + CACHE_TTL + ε) T = false) := by
  constructor
  · constructor
    · intro h
      have := of_decide_eq_true h
      omega
    · intro h
      apply decide_eq_true
      omega
  · intro ε hε
    constructor
    · apply decide_eq_true
      omega
    · apply decide_eq_false
      omega

/-- Witness for C6 at `T = 0`, `ε = 1`. -/
theorem c6_freshness_boundary_witness :
    isFresh (0 + CACHE_TTL - 1) 0 = true ∧ isFresh (0 + CACHE_TTL + 1) 0 = false :=
  (c6_freshness_boundary 0 0).2 1 (by decide)

/-- C2: whenever the upstream call returns HTTP 429 and a cache entry
(fresh or stale) exists for the computed key, the handler answers with
status 200 and the stored payload — never a 429. When the entry is
stale (so the upstream call actually happens rather than a fresh cache
hit), the marker is the rate-limit-fallback `X-Cache: STALE`; a fresh
entry short-circuits to `HIT` before any fetch. -/
theorem c2_rate_limit_fallback (idsParam vsParam changeParam : Option String)
    (cache : Cache) (now : Int) (body : BodyResult String)
    (hfb : fallbackGuard cache (cacheKeyOf idsParam vsParam changeParam) = true) :
    (handler idsParam vsParam changeParam cache now (.resp 429 body)).1.status = 200
    ∧ (handler idsParam vsParam changeParam cache now (.resp 429 body)).1.body
        = cache.data.getD ""
    ∧ (handler idsParam vsParam changeParam cache now (.resp 429 body)).1.status ≠ 429
    ∧ (hitGuard cache (cacheKeyOf idsParam vsParam changeParam) now = false →
        (handler idsParam vsParam changeParam cache now (.resp 429 body)).1.xCache
          = some "STALE") := by
  unfold handler
  by_cases hh : hitGuard cache (cacheKeyOf idsParam vsParam changeParam) now = true
  · simp [hh]
  · have hh' : hitGuard cache (cacheKeyOf idsParam vsParam changeParam) now = false := by
      simpa using hh
    simp [hh', hfb]

/-- Witness for C2: a stale entry under the default key, upstream 429. -/
theorem c2_rate_limit_fallback_witness :
    (handler none none none ⟨some "cached", some "bitcoin,ethereum,solana:usd:true", 0⟩
        200000 (.resp 429 (.ok "x"))).1.status = 200
    ∧ (handler none none none ⟨some "cached", some "bitcoin,ethereum,solana:usd:true", 0⟩
        200000 (.resp 429 (.ok "x"))).1.body = "cached"
    ∧ (handler none none none ⟨some "cached", some "bitcoin,ethereum,solana:usd:true", 0⟩
        200000 (.resp 429 (.ok "x"))).1.status ≠ 429
    ∧ (handler none none none ⟨some "cached", some "bitcoin,ethereum,solana:usd:true", 0⟩
        200000 (.resp 429 (.ok "x"))).1.xCache = some "STALE" := by
  have h := c2_rate_limit_fallback none none none
    ⟨some "cached", some "bitcoin,ethereum,solana:usd:true", 0⟩ 200000 (.ok "x") (by decide)
  exact ⟨h.1, h.2.1, h.2.2.1, h.2.2.2 (by decide)⟩

/-- C10: two requests agreeing on the `ids`, `vs_currencies` and
`include_24hr_change` query parameters get identical validated values
and an identical cache key, whatever their other query parameters,
headers, or URL components. -/
theorem c10_key_determinism (r1 r2 : Request)
    (h1 : getParam r1 "ids" = getParam r2 "ids")
    (h2 : getParam r1 "vs_currencies" = getParam r2 "vs_currencies")
    (h3 : getParam r1 "include_24hr_change" = getParam r2 "include_24hr_change") :
    validatedOf r1 = validatedOf r2 ∧ requestCacheKey r1 = requestCacheKey r2 := by
  unfold validatedOf requestCacheKey cacheKeyOf
  rw [h1, h2, h3]
  exact ⟨rfl, rfl⟩

/-- Witness for C10: same three parameters, different extra parameter,
parameter order, headers, and path. -/
theorem c10_key_determinism_witness :
    validatedOf ⟨[("ids", "bitcoin"), ("vs_currencies", "eur"),
        ("include_24hr_change", "false"), ("debug", "1")],
        [("x-forwarded-for", "10.0.0.1")], "/api/coingecko"⟩
      = validatedOf ⟨[("vs_currencies", "eur"), ("ids", "bitcoin"),
        ("include_24hr_change", "false")], [], "/other"⟩
    ∧ requestCacheKey ⟨[("ids", "bitcoin"), ("vs_currencies", "eur"),
        ("include_24hr_change", "false"), ("debug", "1")],
        [("x-forwarded-for", "10.0.0.1")], "/api/coingecko"⟩
      = requestCacheKey ⟨[("vs_currencies", "eur"), ("ids", "bitcoin"),
        ("include_24hr_change", "false")], [], "/other"⟩ :=
  c10_key_determinism
    ⟨[("ids", "bitcoin"), ("vs_currencies", "eur"),
        ("include_24hr_change", "false"), ("debug", "1")],
        [("x-forwarded-for", "10.0.0.1")], "/api/coingecko"⟩
    ⟨[("vs_currencies", "eur"), ("ids", "bitcoin"),
        ("include_24hr_change", "false")], [], "/other"⟩
    (by decide) (by decide) (by decide)

/-- C3 counterexample: upstream answers with a non-2xx/non-429
response (status 500, body `"oops"`) while a stale cache entry exists
for the computed key; the handler does NOT recover with the stored
payload — it passes the upstream body and status through with an
`X-Cache: MISS` marker. -/
theorem c3_counterexample :
    (handler none none none ⟨some "cached", some "bitcoin,ethereum,solana:usd:true", 0⟩
        200000 (.resp 500 (.ok "oops"))).1.status = 500
    ∧ (handler none none none ⟨some "cached", some "bitcoin,ethereum,solana:usd:true", 0⟩
        200000 (.resp 500 (.ok "oops"))).1.body = "oops"
    ∧ (handler none none none ⟨some "cached", some "bitcoin,ethereum,solana:usd:true", 0⟩
        200000 (.resp 500 (.ok "oops"))).1.body ≠ "cached"
    ∧ (handler none none none ⟨some "cached", some "bitcoin,ethereum,solana:usd:true", 0⟩
        200000 (.resp 500 (.ok "oops"))).1.status ≠ 200
    ∧ fallbackGuard ⟨some "cached", some "bitcoin,ethereum,solana:usd:true", 0⟩
        (cacheKeyOf none none none) = true := by
  decide

/-- C3 amended: only a thrown upstream call (network failure, timeout,
or body-read failure — here the fetch-throw case) is recovered: with a
cache entry for the key the handler returns the stored payload with
status 200 and the `ERROR-FALLBACK` marker, with no entry it returns
the fixed JSON error body with status 500 and no headers beyond the
content markers; the cache is unchanged either way. Non-2xx/non-429
upstream responses are not recovered but passed through verbatim
(see the counterexample). Stated for requests that reach the upstream
call, i.e. no fresh cache hit. -/
theorem c3_exception_fallback (idsParam vsParam changeParam : Option String)
    (cache : Cache) (now : Int)
    (hh : hitGuard cache (cacheKeyOf idsParam vsParam changeParam) now = false) :
    (fallbackGuard cache (cacheKeyOf idsParam vsParam changeParam) = true →
        (handler idsParam vsParam changeParam cache now .fetchThrow).1
          = ⟨200, cache.data.getD "", some "ERROR-FALLBACK", some "public, max-age=120"⟩)
    ∧ (fallbackGuard cache (cacheKeyOf idsParam vsParam changeParam) = false →
        (handler idsParam vsParam changeParam cache now .fetchThrow).1
          = ⟨500, errorBody, none, none⟩)
    ∧ (handler idsParam vsParam changeParam cache now .fetchThrow).2 = cache := by
  refine ⟨?_, ?_, ?_⟩
  · intro hfb
    simp [handler, catchBlock, hh, hfb]
  · intro hfb
    simp [handler, catchBlock, hh, hfb]
  · by_cases hfb : fallbackGuard cache (cacheKeyOf idsParam vsParam changeParam) = true
    · simp [handler, catchBlock, hh, hfb]
    · have hfb' : fallbackGuard cache (cacheKeyOf idsParam vsParam changeParam) = false := by
        simpa using hfb
      simp [handler, catchBlock, hh, hfb']

/-- Witness for C3 (amended): cold cache, thrown fetch — hard failure
with the fixed error body and an unchanged cache. -/
theorem c3_exception_fallback_witness :
    (handler none none none initialCache 5 .fetchThrow).1 = ⟨500, errorBody, none, none⟩
    ∧ (handler none none none initialCache 5 .fetchThrow).2 = initialCache := by
  have h := c3_exception_fallback none none none initialCache 5 (by decide)
  exact ⟨h.2.1 (by decide), h.2.2⟩

/-- C4 counterexample: with a stale cache entry present, an upstream
429 yields a fallback response with status 200 — the upstream-determined
status (429) is translated, not carried verbatim. -/
theorem c4_counterexample :
    (handler none none none ⟨some "cached", some "bitcoin,ethereum,solana:usd:true", 0⟩
        200000 (.resp 429 (.ok "y"))).1.xCache = some "STALE"
    ∧ (handler none none none ⟨some "cached", some "bitcoin,ethereum,solana:usd:true", 0⟩
        200000 (.resp 429 (.ok "y"))).1.status = 200
    ∧ (handler none none none ⟨some "cached", some "bitcoin,ethereum,solana:usd:true", 0⟩
        200000 (.resp 429 (.ok "y"))).1.status ≠ 429 := by
  decide

/-- C4 amended: the upstream status is carried verbatim exactly on the
direct-response (`X-Cache: MISS`) path, together with the upstream
body; the cache-hit, rate-limit-fallback and error-fallback responses
all use status 200, and the hard failure (no `X-Cache` header) uses
the fixed 500 with the fixed error body. -/
theorem c4_status_passthrough (idsParam vsParam changeParam : Option String)
    (cache : Cache) (now : Int) (upstream : FetchOutcome String) :
    ((handler idsParam vsParam changeParam cache now upstream).1.xCache = some "MISS" →
      ∃ s b, upstream = .resp s (.ok b)
        ∧ (handler idsParam vsParam changeParam cache now upstream).1.status = s
        ∧ (handler idsParam vsParam changeParam cache now upstream).1.body = b)
    ∧ ((handler idsParam vsParam changeParam cache now upstream).1.xCache = some "HIT"
        ∨ (handler idsParam vsParam changeParam cache now upstream).1.xCache = some "STALE"
        ∨ (handler idsParam vsParam changeParam cache now upstream).1.xCache
            = some "ERROR-FALLBACK" →
        (handler idsParam vsParam changeParam cache now upstream).1.status = 200)
    ∧ ((handler idsParam vsParam changeParam cache now upstream).1.xCache = none →
        (handler idsParam vsParam changeParam cache now upstream).1.status = 500
        ∧ (handler idsParam vsParam changeParam cache now upstream).1.body = errorBody) := by
  by_cases hh : hitGuard cache (cacheKeyOf idsParam vsParam changeParam) now = true
  · have hr : (handler idsParam vsParam changeParam cache now upstream).1
        = ⟨200, cache.data.getD "", some "HIT", some swrCacheControl⟩ := by
      simp [handler, hh]
    rw [hr]
    refine ⟨?_, fun _ => rfl, ?_⟩
    · intro hx; exact absurd (Option.some.inj hx) (by decide)
    · intro hx; exact Option.noConfusion hx
  · have hh' : hitGuard cache (cacheKeyOf idsParam vsParam changeParam) now = false := by
      simpa using hh
    cases upstream with
    | fetchThrow =>
      by_cases hfb : fallbackGuard cache (cacheKeyOf idsParam vsParam changeParam) = true
      · have hr : (handler idsParam vsParam changeParam cache now .fetchThrow).1
            = ⟨200, cache.data.getD "", some "ERROR-FALLBACK", some "public, max-age=120"⟩ := by
          simp [handler, catchBlock, hh', hfb]
        rw [hr]
        refine ⟨?_, fun _ => rfl, ?_⟩
        · intro hx; exact absurd (Option.some.inj hx) (by decide)
        · intro hx; exact Option.noConfusion hx
      · have hfb' : fallbackGuard cache (cacheKeyOf idsParam vsParam changeParam) = false := by
          simpa using hfb
        have hr : (handler idsParam vsParam changeParam cache now .fetchThrow).1
            = ⟨500, errorBody, none, none⟩ := by
          simp [handler, catchBlock, hh', hfb']
        rw [hr]
        refine ⟨?_, ?_, fun _ => ⟨rfl, rfl⟩⟩
        · intro hx; exact Option.noConfusion hx
        · intro hx
          rcases hx with hx | hx | hx <;> exact Option.noConfusion hx
    | resp s body =>
      by_cases hg : ((s == 429) && fallbackGuard cache (cacheKeyOf idsParam vsParam changeParam))
          = true
      · have hr : (handler idsParam vsParam changeParam cache now (.resp s body)).1
            = ⟨200, cache.data.getD "", some "STALE", some swrCacheControl⟩ := by
          simp [handler, hh', hg]
        rw [hr]
        refine ⟨?_, fun _ => rfl, ?_⟩
        · intro hx; exact absurd (Option.some.inj hx) (by decide)
        · intro hx; exact Option.noConfusion hx
      · have hg' : ((s == 429) && fallbackGuard cache (cacheKeyOf idsParam vsParam changeParam))
            = false := by simpa using hg
        cases body with
        | throws =>
          by_cases hs429 : (s == 429) = true
          · have hfb0 : fallbackGuard cache (cacheKeyOf idsParam vsParam changeParam) = false := by
              rw [hs429] at hg'
              simpa using hg'
            have hr : (handler idsParam vsParam changeParam cache now (.resp s .throws)).1
                = ⟨500, errorBody, none, none⟩ := by
              simp [handler, catchBlock, hh', hg', hfb0]
            rw [hr]
            refine ⟨?_, ?_, fun _ => ⟨rfl, rfl⟩⟩
            · intro hx; exact Option.noConfusion hx
            · intro hx
              rcases hx with hx | hx | hx <;> exact Option.noConfusion hx
          · have hs429' : (s == 429) = false := by simpa using hs429
            by_cases hfb : fallbackGuard cache (cacheKeyOf idsParam vsParam changeParam) = true
            · have hr : (handler idsParam vsParam changeParam cache now (.resp s .throws)).1
                  = ⟨200, cache.data.getD "", some "ERROR-FALLBACK",
                      some "public, max-age=120"⟩ := by
                simp [handler, catchBlock, hh', hs429', hfb]
              rw [hr]
              refine ⟨?_, fun _ => rfl, ?_⟩
              · intro hx; exact absurd (Option.some.inj hx) (by decide)
              · intro hx; exact Option.noConfusion hx
            · have hfb' : fallbackGuard cache (cacheKeyOf idsParam vsParam changeParam)
                  = false := by simpa using hfb
              have hr : (handler idsParam vsParam changeParam cache now (.resp s .throws)).1
                  = ⟨500, errorBody, none, none⟩ := by
                simp [handler, catchBlock, hh', hs429', hfb']
              rw [hr]
              refine ⟨?_, ?_, fun _ => ⟨rfl, rfl⟩⟩
              · intro hx; exact Option.noConfusion hx
              · intro hx
                rcases hx with hx | hx | hx <;> exact Option.noConfusion hx
        | ok b =>
          have hr : (handler idsParam vsParam changeParam cache now (.resp s (.ok b))).1
              = ⟨s, b, some "MISS", some swrCacheControl⟩ := by
            simp [handler, hh', hg']
          rw [hr]
          refine ⟨fun _ => ⟨s, b, rfl, rfl, rfl⟩, ?_, ?_⟩
          · intro hx
            rcases hx with hx | hx | hx <;> exact absurd (Option.some.inj hx) (by decide)
          · intro hx; exact Option.noConfusion hx

/-- Witness for C4 (amended): a 404 upstream response on a cold cache
is passed through on the MISS path with its status and body. -/
theorem c4_status_passthrough_witness :
    ∃ s b, (FetchOutcome.resp 404 (BodyResult.ok "nf") : FetchOutcome String)
        = FetchOutcome.resp s (.ok b)
      ∧ (handler none none none initialCache 0 (.resp 404 (.ok "nf"))).1.status = s
      ∧ (handler none none none initialCache 0 (.resp 404 (.ok "nf"))).1.body = b := by
  have h := c4_status_passthrough none none none initialCache 0 (.resp 404 (.ok "nf"))
  exact h.1 (by decide)

/-- C5 counterexample: a first call that succeeds (upstream 200) with
an *empty* body populates the cache with `data = ''`, which is falsy,
so an immediately repeated identical call (5 ms later, well within the
TTL) does not take the cache-hit path: it goes upstream again (here a
second 200 with a different body) and answers `MISS`, not `HIT`, with
a body that is not byte-identical to the first. -/
theorem c5_counterexample :
    (handler none none none initialCache 0 (.resp 200 (.ok ""))).1.status = 200
    ∧ (handler none none none initialCache 0 (.resp 200 (.ok ""))).1.xCache = some "MISS"
    ∧ (handler none none none
        (handler none none none initialCache 0 (.resp 200 (.ok ""))).2
        5 (.resp 200 (.ok "other"))).1.xCache ≠ some "HIT"
    ∧ (handler none none none
        (handler none none none initialCache 0 (.resp 200 (.ok ""))).2
        5 (.resp 200 (.ok "other"))).1.body ≠ "" := by
  decide

/-- C5 amended: if a call that reaches upstream (no fresh cache hit)
succeeds with a 2xx response and a *non-empty* body, the cache is
populated under the key joined from the validated ids, currency and
flag, and any repeated call with identical inputs within the 120 s TTL
takes the cache-hit path and returns a byte-identical payload with the
`HIT` marker (the empty-body success is the one exception: the stored
`''` is falsy, see the counterexample). -/
theorem c5_idempotent_cache_hit (idsParam vsParam changeParam : Option String)
    (cache : Cache) (now1 now2 : Int) (s : Nat) (b : String) (up2 : FetchOutcome String)
    (hh : hitGuard cache (cacheKeyOf idsParam vsParam changeParam) now1 = false)
    (hs1 : 200 ≤ s) (hs2 : s ≤ 299) (hb : b ≠ "")
    (ht : now2 - now1 < CACHE_TTL) :
    (handler idsParam vsParam changeParam cache now1 (.resp s (.ok b))).1.xCache = some "MISS"
    ∧ (handler idsParam vsParam changeParam cache now1 (.resp s (.ok b))).1.body = b
    ∧ (handler idsParam vsParam changeParam cache now1 (.resp s (.ok b))).2
        = ⟨some b, some (cacheKeyOf idsParam vsParam changeParam), now1⟩
    ∧ (handler idsParam vsParam changeParam
        (handler idsParam vsParam changeParam cache now1 (.resp s (.ok b))).2
        now2 up2).1.xCache = some "HIT"
    ∧ (handler idsParam vsParam changeParam
        (handler idsParam vsParam changeParam cache now1 (.resp s (.ok b))).2
        now2 up2).1.body
        = (handler idsParam vsParam changeParam cache now1 (.resp s (.ok b))).1.body := by
  have hneq : (s == 429) = false := by
    have hne : s ≠ 429 := by omega
    simpa using hne
  have hok : respOk s = true := by
    simp only [respOk, Bool.and_eq_true, decide_eq_true_eq]
    omega
  have h1 : handler idsParam vsParam changeParam cache now1 (.resp s (.ok b))
      = (⟨s, b, some "MISS", some swrCacheControl⟩,
         ⟨some b, some (cacheKeyOf idsParam vsParam changeParam), now1⟩) := by
    simp [handler, hh, hneq, hok]
  have hbeq : (b == "") = false := by
    simpa using hb
  have hhit2 : hitGuard ⟨some b, some (cacheKeyOf idsParam vsParam changeParam), now1⟩
      (cacheKeyOf idsParam vsParam changeParam) now2 = true := by
    simp [hitGuard, dataTruthy, isFresh, hbeq, ht]
  have h2 : (handler idsParam vsParam changeParam
      ⟨some b, some (cacheKeyOf idsParam vsParam changeParam), now1⟩ now2 up2).1
      = ⟨200, b, some "HIT", some swrCacheControl⟩ := by
    simp [handler, hhit2]
  rw [h1]
  exact ⟨rfl, rfl, rfl, by rw [h2], by rw [h2]⟩

/-- Witness for C5 (amended), the spec scenario: `ids=bitcoin,ethereum`,
`vs_currencies=usd`, cold cache, upstream 200 — the cache is populated
under the key `bitcoin,ethereum:usd:true` and the repeated call 5 ms
later answers `HIT` with the identical body. -/
theorem c5_idempotent_cache_hit_witness :
    (handler (some "bitcoin,ethereum") (some "usd") none initialCache 0
        (.resp 200 (.ok "data"))).2
      = ⟨some "data", some "bitcoin,ethereum:usd:true", 0⟩
    ∧ (handler (some "bitcoin,ethereum") (some "usd") none
        (handler (some "bitcoin,ethereum") (some "usd") none initialCache 0
          (.resp 200 (.ok "data"))).2
        5 .fetchThrow).1.xCache = some "HIT"
    ∧ (handler (some "bitcoin,ethereum") (some "usd") none
        (handler (some "bitcoin,ethereum") (some "usd") none initialCache 0
          (.resp 200 (.ok "data"))).2
        5 .fetchThrow).1.body
      = (handler (some "bitcoin,ethereum") (some "usd") none initialCache 0
          (.resp 200 (.ok "data"))).1.body := by
  have h := c5_idempotent_cache_hit (some "bitcoin,ethereum") (some "usd") none
    initialCache 0 5 200 "data" .fetchThrow (by decide) (by decide) (by decide)
    (by decide) (by decide)
  refine ⟨?_, h.2.2.2.1, h.2.2.2.2⟩
  rw [h.2.2.1]
  decide

/-- C7: the cache slot is written only by a successful (2xx) upstream
response, in which case it stores exactly the raw body under the
computed key with the current timestamp; every other path (cache hit,
rate-limit fallback, error fallback, hard failure, non-2xx responses)
leaves the cache state unchanged. Conversely, a 2xx body that reaches
the handler past the fresh-hit check is always written. -/
theorem c7_cache_write_only_on_2xx (idsParam vsParam changeParam : Option String)
    (cache : Cache) (now : Int) (upstream : FetchOutcome String) :
    ((handler idsParam vsParam changeParam cache now upstream).2 = cache
      ∨ ∃ s b, upstream = .resp s (.ok b) ∧ respOk s = true
          ∧ (handler idsParam vsParam changeParam cache now upstream).2
            = ⟨some b, some (cacheKeyOf idsParam vsParam changeParam), now⟩)
    ∧ (∀ s b, upstream = .resp s (.ok b) → respOk s = true →
        hitGuard cache (cacheKeyOf idsParam vsParam changeParam) now = false →
        (handler idsParam vsParam changeParam cache now upstream).2
          = ⟨some b, some (cacheKeyOf idsParam vsParam changeParam), now⟩) := by
  constructor
  · by_cases hh : hitGuard cache (cacheKeyOf idsParam vsParam changeParam) now = true
    · left; simp [handler, hh]
    · have hh' : hitGuard cache (cacheKeyOf idsParam vsParam changeParam) now = false := by
        simpa using hh
      cases upstream with
      | fetchThrow =>
        left
        simp only [handler, hh', Bool.false_eq_true, if_false, catchBlock]
        split <;> rfl
      | resp s body =>
        by_cases hg : ((s == 429)
            && fallbackGuard cache (cacheKeyOf idsParam vsParam changeParam)) = true
        · left; simp [handler, hh', hg]
        · have hg' : ((s == 429)
              && fallbackGuard cache (cacheKeyOf idsParam vsParam changeParam)) = false := by
            simpa using hg
          cases body with
          | throws =>
            left
            simp only [handler, hh', Bool.false_eq_true, if_false, hg', catchBlock]
            split <;> rfl
          | ok b =>
            by_cases hok : respOk s = true
            · right
              exact ⟨s, b, rfl, hok, by simp [handler, hh', hg', hok]⟩
            · left
              have hok' : respOk s = false := by simpa using hok
              simp [handler, hh', hg', hok']
  · intro s b hup hok hh
    subst hup
    have hs2 : s ≤ 299 := by
      have := (Bool.and_eq_true _ _).mp hok
      exact of_decide_eq_true this.2
    have hneq : (s == 429) = false := by
      have hne : s ≠ 429 := by omega
      simpa using hne
    simp [handler, hh, hneq, hok]

/-- Witness for C7: a 201 response on a cold cache writes body, key
and timestamp into the slot. -/
theorem c7_cache_write_only_on_2xx_witness :
    (handler none none none initialCache 7 (.resp 201 (.ok "fresh"))).2
      = ⟨some "fresh", some "bitcoin,ethereum,solana:usd:true", 7⟩ := by
  have h := c7_cache_write_only_on_2xx none none none initialCache 7 (.resp 201 (.ok "fresh"))
  rw [h.2 201 "fresh" rfl (by decide) (by decide)]
  decide

/-- A value surviving the `||`-truthiness filter is nonzero. -/
lemma truthyNum_some_ne_zero {x : Option ℚ} {q : ℚ} (hx : truthyNum x = some q) : q ≠ 0 := by
  cases x with
  | none => cases hx
  | some q0 =>
    by_cases h0 : q0 = 0
    · simp [truthyNum, h0] at hx
    · simp [truthyNum, h0] at hx
      exact hx ▸ h0

/-- The fallback chain yields `0` exactly when both optional fields are
falsy (absent or zero) and the price itself is `0`. -/
lemma jsPrevClose_eq_zero_iff (meta : YahooMeta) :
    jsPrevClose meta = 0 ↔ (meta.regularMarketPrice = 0
      ∧ truthyNum meta.chartPreviousClose = none
      ∧ truthyNum meta.previousClose = none) := by
  unfold jsPrevClose
  cases hc : truthyNum meta.chartPreviousClose with
  | some q => simp [truthyNum_some_ne_zero hc]
  | none =>
    cases hp : truthyNum meta.previousClose with
    | some q => simp [truthyNum_some_ne_zero hp]
    | none => simp

/-- C8: the stock-quote fetcher returns absent (`none`) on every
failure mode — thrown fetch (network failure / timeout), a non-2xx
response, a thrown body parse — and on an all-zero quote
(`c = h = l = 0`, upstream's "unknown symbol" signal), rather than a
zero-priced result; a 2xx non-all-zero quote yields
`{symbol, price := c, changePercent := dp}`. The function is total, so
no exception propagates. -/
theorem c8_finnhub_zero_quote_absent (symbol apiKey : String)
    (outcome : FetchOutcome FinnhubQuote) :
    (outcome = .fetchThrow → fetchFinnhubQuote symbol apiKey outcome = none)
    ∧ (∀ s body, outcome = .resp s body → respOk s = false →
        fetchFinnhubQuote symbol apiKey outcome = none)
    ∧ (∀ s, outcome = .resp s .throws → fetchFinnhubQuote symbol apiKey outcome = none)
    ∧ (∀ s q, outcome = .resp s (.ok q) → q.c = 0 → q.h = 0 → q.l = 0 →
        fetchFinnhubQuote symbol apiKey outcome = none)
    ∧ (∀ s q, outcome = .resp s (.ok q) → respOk s = true →
        ¬(q.c = 0 ∧ q.h = 0 ∧ q.l = 0) →
        fetchFinnhubQuote symbol apiKey outcome = some ⟨symbol, q.c, q.dp⟩) := by
  refine ⟨?_, ?_, ?_, ?_, ?_⟩
  · intro hup
    subst hup
    rfl
  · intro s body hup hok
    subst hup
    simp [fetchFinnhubQuote, hok]
  · intro s hup
    subst hup
    simp [fetchFinnhubQuote]
  · intro s q hup hc hh hl
    subst hup
    simp [fetchFinnhubQuote, hc, hh, hl]
  · intro s q hup hok hz
    subst hup
    simp [fetchFinnhubQuote, hok, hz]

/-- Witness for C8: an all-zero quote on a 200 response yields absent,
not a zero-priced result. -/
theorem c8_finnhub_zero_quote_absent_witness :
    fetchFinnhubQuote "AAPL" "token" (.resp 200 (.ok ⟨0, 0, 0, 0, 0, 0, 0, 0⟩)) = none := by
  have h := c8_finnhub_zero_quote_absent "AAPL" "token"
    (.resp 200 (.ok ⟨0, 0, 0, 0, 0, 0, 0, 0⟩))
  exact h.2.2.2.1 200 ⟨0, 0, 0, 0, 0, 0, 0, 0⟩ rfl rfl rfl rfl

/-- C9 counterexample: a 200 chart response whose `regularMarketPrice`
is `0` with both previous-close fields absent makes the fallback
denominator `0`, so the JS computation is `(0 - 0) / 0 * 100 = NaN`
(modelled `none`) — an undefined result, not the claimed 0% change. -/
theorem c9_counterexample :
    fetchYahooQuote "^GSPC" (.resp 200 (.ok ⟨⟨[⟨⟨0, none, none⟩, none⟩]⟩⟩))
      = some ⟨0, none, []⟩
    ∧ yahooChange ⟨0, none, none⟩ = none
    ∧ yahooChange ⟨0, none, none⟩ ≠ some 0 := by
  refine ⟨by decide, by decide, by decide⟩

/-- C9 amended: the chart fetcher computes the percent change as
`(price - prevClose) / prevClose * 100` with `prevClose` falling back
from `chartPreviousClose` through `previousClose` to `price`; the
division is undefined (NaN) exactly when the price is `0` and both
fallback fields are falsy, and in the worst case of both fields absent
with a nonzero price the change is exactly 0%. -/
theorem c9_change_formula_and_fallback (symbol : String) (s : Nat)
    (d : YahooChartResponse) (item : YahooResultItem)
    (hok : respOk s = true) (hhead : d.chart.result.head? = some item) :
    fetchYahooQuote symbol (.resp s (.ok d))
      = some ⟨item.meta.regularMarketPrice, yahooChange item.meta, sparklineOf item⟩
    ∧ (yahooChange item.meta = none ↔
        (item.meta.regularMarketPrice = 0
          ∧ truthyNum item.meta.chartPreviousClose = none
          ∧ truthyNum item.meta.previousClose = none))
    ∧ (item.meta.regularMarketPrice ≠ 0 →
        truthyNum item.meta.chartPreviousClose = none →
        truthyNum item.meta.previousClose = none →
        yahooChange item.meta = some 0)
    ∧ (∀ q : ℚ, yahooChange item.meta = some q →
        q = (item.meta.regularMarketPrice - jsPrevClose item.meta)
          / jsPrevClose item.meta * 100) := by
  refine ⟨?_, ?_, ?_, ?_⟩
  · simp [fetchYahooQuote, hok, hhead]
  · unfold yahooChange jsDiv
    by_cases h0 : jsPrevClose item.meta = 0
    · simp [h0, (jsPrevClose_eq_zero_iff item.meta).mp h0]
    · have hnr : ¬(item.meta.regularMarketPrice = 0
          ∧ truthyNum item.meta.chartPreviousClose = none
          ∧ truthyNum item.meta.previousClose = none) :=
        fun hc => h0 ((jsPrevClose_eq_zero_iff item.meta).mpr hc)
      rw [if_neg h0]
      simp [hnr]
  · intro hp hcp hpp
    have hpc : jsPrevClose item.meta = item.meta.regularMarketPrice := by
      unfold jsPrevClose
      rw [hcp, hpp]
    unfold yahooChange jsDiv
    rw [hpc]
    simp [hp]
  · intro q hq
    unfold yahooChange jsDiv at hq
    by_cases h0 : jsPrevClose item.meta = 0
    · simp [h0] at hq
    · rw [if_neg h0] at hq
      simp only [Option.map_some'] at hq
      exact (Option.some.inj hq).symm

/-- Witness for C9 (amended): price 100, both fallback fields absent —
the change is exactly 0%. -/
theorem c9_change_formula_and_fallback_witness :
    yahooChange ⟨100, none, none⟩ = some 0 := by
  have h := c9_change_formula_and_fallback "^GSPC" 200 ⟨⟨[⟨⟨100, none, none⟩, none⟩]⟩⟩
    ⟨⟨100, none, none⟩, none⟩ (by decide) rfl
  exact h.2.2.1 (by decide) rfl rfl

/-- Witness for C1 at an injection-like ids value and an uppercase
currency. -/
theorem c1_validator_total_and_bounded_witness :
    validateCurrency (some "JPY") ∈ ALLOWED_CURRENCIES :=
  (c1_validator_total_and_bounded (some " BITCOIN ,..;drop table--,x,ETH!") (some "JPY")).2.1
